import Mathlib

/-!
Verification of the `xmp-writer` crate: a shallow embedding of the
scoped XMP/RDF builder (`src/lib.rs`, `src/types.rs`) together with the
primitive value encoders, and theorems settling the frozen claims about
namespace bookkeeping, scope closing, escaping, and value rendering.

The writer state is a growing output string plus an ordered set of
namespaces used so far (the Rust `BTreeSet<Namespace>`).  Builder calls
are deep-embedded as a `Content` tree (scalar value / array / struct),
and a state-passing interpreter mirrors the Rust handles: opening an
element appends its opening tag and records its namespace, arrays and
structs additionally record `Rdf`, and the `Drop` impls become the
closing-tag appends at the end of each scope.
-/

namespace XmpW

/-- XML namespaces for the XMP properties (from `types.rs`, `enum Namespace`). -/
inductive Namespace where
  | Rdf
  | DublinCore
  | Xmp
  | XmpRights
  | XmpResourceRef
  | XmpResourceEvent
  | XmpVersion
  | XmpJob
  | XmpJobManagement
  | XmpColorant
  | XmpFont
  | XmpDimensions
  | XmpMedia
  | XmpPaged
  | XmpDynamicMedia
  | XmpImage
  | XmpIdq
  | AdobePdf
  | PdfAId
  | PdfXId
  | Custom : String × String → Namespace
deriving DecidableEq, Repr

/-- URL of a namespace (from `Namespace::url`). -/
def Namespace.url : Namespace → String
  | .Rdf => "http://www.w3.org/1999/02/22-rdf-syntax-ns#"
  | .DublinCore => "http://purl.org/dc/elements/1.1/"
  | .Xmp => "http://ns.adobe.com/xap/1.0/"
  | .XmpRights => "http://ns.adobe.com/xap/1.0/rights/"
  | .XmpResourceRef => "http://ns.adobe.com/xap/1.0/sType/ResourceRef#"
  | .XmpResourceEvent => "http://ns.adobe.com/xap/1.0/sType/ResourceEvent#"
  | .XmpVersion => "http://ns.adobe.com/xap/1.0/sType/Version#"
  | .XmpJob => "http://ns.adobe.com/xap/1.0/sType/Job#"
  | .XmpColorant => "http://ns.adobe.com/xap/1.0/g/"
  | .XmpFont => "http://ns.adobe.com/xap/1.0/sType/Font#"
  | .XmpDimensions => "http://ns.adobe.com/xap/1.0/sType/Dimensions#"
  | .XmpMedia => "http://ns.adobe.com/xap/1.0/mm/"
  | .XmpJobManagement => "http://ns.adobe.com/xap/1.0/bj/"
  | .XmpPaged => "http://ns.adobe.com/xap/1.0/t/pg/"
  | .XmpDynamicMedia => "http://ns.adobe.com/xap/1.0/DynamicMedia/"
  | .XmpImage => "http://ns.adobe.com/xap/1.0/g/img/"
  | .AdobePdf => "http://ns.adobe.com/pdf/1.3/"
  | .XmpIdq => "http://ns.adobe.com/xmp/Identifier/qual/1.0/"
  | .PdfAId => "http://www.aiim.org/pdfa/ns/id/"
  | .PdfXId => "http://www.npes.org/pdfx/ns/id/"
  | .Custom p => p.2

/-- Prefix of a namespace (from `Namespace::prefix`; `prefix` is a Lean
keyword, hence the name `pfx`). -/
def Namespace.pfx : Namespace → String
  | .Rdf => "rdf"
  | .DublinCore => "dc"
  | .Xmp => "xmp"
  | .XmpRights => "xmpRights"
  | .XmpResourceRef => "stRef"
  | .XmpResourceEvent => "stEvt"
  | .XmpVersion => "stVer"
  | .XmpJob => "stJob"
  | .XmpColorant => "xmpG"
  | .XmpFont => "stFnt"
  | .XmpDimensions => "stDim"
  | .XmpMedia => "xmpMM"
  | .XmpJobManagement => "xmpBJ"
  | .XmpPaged => "xmpTPg"
  | .XmpDynamicMedia => "xmpDM"
  | .XmpImage => "xmpGImg"
  | .XmpIdq => "xmpidq"
  | .AdobePdf => "pdf"
  | .PdfAId => "pdfaid"
  | .PdfXId => "pdfxid"
  | .Custom p => p.1

/-- Declaration-order index of a `Namespace` variant, modelling the
derived `Ord` on the Rust enum (variants compare by declaration order). -/
def Namespace.rank : Namespace → Nat
  | .Rdf => 0
  | .DublinCore => 1
  | .Xmp => 2
  | .XmpRights => 3
  | .XmpResourceRef => 4
  | .XmpResourceEvent => 5
  | .XmpVersion => 6
  | .XmpJob => 7
  | .XmpJobManagement => 8
  | .XmpColorant => 9
  | .XmpFont => 10
  | .XmpDimensions => 11
  | .XmpMedia => 12
  | .XmpPaged => 13
  | .XmpDynamicMedia => 14
  | .XmpImage => 15
  | .XmpIdq => 16
  | .AdobePdf => 17
  | .PdfAId => 18
  | .PdfXId => 19
  | .Custom _ => 20

/-- Strict order on namespaces: derived `Ord` semantics (variant order,
then lexicographic on the `Custom` string pair). -/
def Namespace.ltB (a b : Namespace) : Bool :=
  match a, b with
  | .Custom p, .Custom q => decide (p.1 < q.1) || (p.1 == q.1 && decide (p.2 < q.2))
  | _, _ => decide (a.rank < b.rank)

/-- Ordered-set insertion, modelling `BTreeSet::insert`: keeps the list
sorted by `Namespace.ltB` and deduplicated. -/
def insertNs (x : Namespace) : List Namespace → List Namespace
  | [] => [x]
  | y :: ys =>
    if x = y then y :: ys
    else if Namespace.ltB x y then x :: y :: ys
    else y :: insertNs x ys

/-- Character-level XML escaping from `impl XmpType for &str`: the five
special characters become named entities, everything else is pushed
unchanged. -/
def escapeChar (c : Char) : String :=
  if c = '<' then "&lt;"
  else if c = '>' then "&gt;"
  else if c = '&' then "&amp;"
  else if c = Char.ofNat 39 then "&apos;"
  else if c = '"' then "&quot;"
  else String.singleton c

/-- String escaping from `impl XmpType for &str`: fold over the
characters, appending each escape to the result accumulator. -/
def escapeStr (s : String) : String :=
  s.data.foldl (fun res c => res ++ escapeChar c) ""

/-- Boolean rendering from `impl XmpType for bool`. -/
def boolWrite : Bool → String
  | true => "True"
  | false => "False"

/-- A language specifier (from `struct LangId`). -/
structure LangId where
  val : String
deriving DecidableEq, Repr

/-- The default language id (from `impl Default for LangId`). -/
def LangId.default : LangId := ⟨"x-default"⟩

/-- Types of RDF collections (from `enum RdfCollectionType`). -/
inductive RdfCollectionType where
  | Seq
  | Bag
  | Alt
deriving DecidableEq, Repr

/-- The RDF type name of a collection type (from `RdfCollectionType::rdf_type`). -/
def RdfCollectionType.rdfType : RdfCollectionType → String
  | .Seq => "Seq"
  | .Bag => "Bag"
  | .Alt => "Alt"

/-- Scalar values writable through `Element::value` that the claims
exercise (text goes through the escaping `XmpType` impl for `&str`,
booleans through the `bool` impl, integers through `i32`/`i64`). -/
inductive Val where
  | text : String → Val
  | boolean : Bool → Val
  | integer : Int → Val
deriving DecidableEq, Repr

/-- Rendering of a scalar value into the buffer (the `XmpType::write`
impls). -/
def Val.render : Val → String
  | .text s => escapeStr s
  | .boolean b => boolWrite b
  | .integer i => toString i

/-- Rust `{:02}` formatting of an unsigned value. -/
def pad2 (n : Nat) : String :=
  if n < 10 then "0" ++ toString n else toString n

/-- Rust `{:04}` formatting of an unsigned value. -/
def pad4 (n : Nat) : String :=
  if n < 10 then "000" ++ toString n
  else if n < 100 then "00" ++ toString n
  else if n < 1000 then "0" ++ toString n
  else toString n

/-- Rust `{:02}` formatting of a signed value (the zero padding counts
the sign character). -/
def pad2Int (i : Int) : String :=
  if i < 0 then "-" ++ toString i.natAbs else pad2 i.natAbs

/-- Rust `{:03}` formatting of a signed value (the zero padding counts
the sign character). -/
def pad3Int (i : Int) : String :=
  if i < 0 then "-" ++ pad2 i.natAbs
  else if i.natAbs < 10 then "00" ++ toString i.natAbs
  else if i.natAbs < 100 then "0" ++ toString i.natAbs
  else toString i.natAbs

/-- A date and time (from `struct DateTime`), with the same optional
field structure as the source. -/
structure DateTime where
  year : Nat
  month : Option Nat
  day : Option Nat
  hour : Option Nat
  minute : Option Nat
  second : Option Nat
  tzHour : Option Int
  tzMinute : Option Int
deriving DecidableEq, Repr

/-- The `DateTime::date` constructor. -/
def DateTime.date (year month day : Nat) : DateTime :=
  ⟨year, some month, some day, none, none, none, none, none⟩

/-- Rendering of a `DateTime` (from `impl XmpType for DateTime`).  The
match arms mirror the source exactly, in order; the catch-all arm in the
source is a `panic!`, modelled as `none`. -/
def DateTime.write : DateTime → Option String
  | ⟨y, none, none, none, none, none, none, none⟩ => some (pad4 y)
  | ⟨y, some mo, none, none, none, none, none, none⟩ =>
      some (pad4 y ++ "-" ++ pad2 mo)
  | ⟨y, some mo, some d, none, none, none, none, none⟩ =>
      some (pad4 y ++ "-" ++ pad2 mo ++ "-" ++ pad2 d)
  | ⟨y, some mo, some d, some h, mi, none, none, none⟩ =>
      some (pad4 y ++ "-" ++ pad2 mo ++ "-" ++ pad2 d ++ "T" ++ pad2 h ++ ":"
        ++ pad2 (mi.getD 0))
  | ⟨y, some mo, some d, some h, some mi, some s, none, none⟩ =>
      some (pad4 y ++ "-" ++ pad2 mo ++ "-" ++ pad2 d ++ "T" ++ pad2 h ++ ":"
        ++ pad2 mi ++ ":" ++ pad2 s)
  | ⟨y, some mo, some d, some h, some mi, some s, some tzh, tzm⟩ =>
      some (pad4 y ++ "-" ++ pad2 mo ++ "-" ++ pad2 d ++ "T" ++ pad2 h ++ ":"
        ++ pad2 mi ++ ":" ++ pad2 s ++ pad3Int tzh ++ ":" ++ pad2Int (tzm.getD 0))
  | _ => none

/-- A user-assigned rating (from `enum Rating`). -/
inductive Rating where
  | Rejected
  | Unknown
  | OneStar
  | TwoStars
  | ThreeStars
  | FourStars
  | FiveStars
deriving DecidableEq, Repr

/-- Model of `Rating::from_stars`: the panic arm for more than five stars is
modelled as `none`. -/
def Rating.fromStars : Option Nat → Option Rating
  | some 0 => some .Unknown
  | some 1 => some .OneStar
  | some 2 => some .TwoStars
  | some 3 => some .ThreeStars
  | some 4 => some .FourStars
  | some 5 => some .FiveStars
  | some _ => none
  | none => some .Unknown

/-- The writer state (from `struct XmpWriter`): the output buffer and
the `BTreeSet` of used namespaces, modelled as a sorted list. -/
structure XmpWriter where
  buf : String
  namespaces : List Namespace
deriving DecidableEq, Repr

/-- Model of `XmpWriter::new`. -/
def XmpWriter.new : XmpWriter := ⟨"", []⟩

mutual

/-- Deep embedding of what a property's content can be: a scalar value
(`Element::value`), an array (`Element::array` and the items added
through `Array::element_with_attrs`), or a struct (`Element::obj` and
the fields added through `Struct::element_with_attrs`). -/
inductive Content where
  | value : Val → Content
  | arr : RdfCollectionType → Items → Content
  | strct : Fields → Content

inductive Items where
  | nil : Items
  | cons : List (String × String) → Content → Items → Items

inductive Fields where
  | nil : Fields
  | cons : String → Namespace → List (String × String) → Content → Fields → Fields

end

/-- Model of `Element::with_attrs`: append the unterminated opening tag and the
verbatim attributes, and record the namespace in the usage set. -/
def openTagW (w : XmpWriter) (n : String) (ns : Namespace)
    (attrs : List (String × String)) : XmpWriter :=
  { buf := attrs.foldl (fun b kv => b ++ " " ++ kv.1 ++ "=\"" ++ kv.2 ++ "\"")
      (w.buf ++ "<" ++ ns.pfx ++ ":" ++ n),
    namespaces := insertNs ns w.namespaces }

mutual

/-- The interpreter of builder-call trees, mirroring the source handles:
`writeElement` is `Element::with_attrs` followed by `value`/`array`/`obj`
and the corresponding `Drop`; `writeItems` plays the items of an array
through `Array::element_with_attrs`; `writeFields` plays the fields of a
struct through `Struct::element_with_attrs`. -/
def writeElement (w : XmpWriter) (n : String) (ns : Namespace)
    (attrs : List (String × String)) : Content → XmpWriter
  | .value v =>
      let w1 := openTagW w n ns attrs
      { w1 with buf := w1.buf ++ ">" ++ v.render ++ "</" ++ ns.pfx ++ ":" ++ n ++ ">" }
  | .strct fs =>
      let w1 := openTagW w n ns attrs
      let w2 : XmpWriter :=
        { buf := w1.buf ++ " rdf:parseType=\"Resource\">",
          namespaces := insertNs .Rdf w1.namespaces }
      let w3 := writeFields w2 fs
      { w3 with buf := w3.buf ++ "</" ++ ns.pfx ++ ":" ++ n ++ ">" }
  | .arr k its =>
      let w1 := openTagW w n ns attrs
      let w2 : XmpWriter :=
        { buf := w1.buf ++ ">" ++ "<rdf:" ++ k.rdfType ++ ">",
          namespaces := insertNs .Rdf w1.namespaces }
      let w3 := writeItems w2 its
      { w3 with buf := w3.buf ++ "</rdf:" ++ k.rdfType ++ ">" ++ "</" ++ ns.pfx ++ ":" ++ n ++ ">" }

def writeItems (w : XmpWriter) : Items → XmpWriter
  | .nil => w
  | .cons attrs c rest => writeItems (writeElement w "li" .Rdf attrs c) rest

def writeFields (w : XmpWriter) : Fields → XmpWriter
  | .nil => w
  | .cons n ns attrs c rest => writeFields (writeElement w n ns attrs c) rest

end

/-- A whole document: the sequence of top-level `XmpWriter::element`
calls (name, namespace, content); top-level elements carry no
attributes in the source API. -/
def writeDoc (w : XmpWriter) : List (String × Namespace × Content) → XmpWriter
  | [] => w
  | (n, ns, c) :: rest => writeDoc (writeElement w n ns [] c) rest

/-- The namespaces `XmpWriter::finish` iterates when emitting `xmlns`
declarations: the usage set minus `Rdf`. -/
def finishDecls (w : XmpWriter) : List Namespace :=
  w.namespaces.filter (fun ns => ns ≠ Namespace.Rdf)

/-- Model of `XmpWriter::finish`: wrap the accumulated buffer in the xpacket
header, the `x:xmpmeta`/`rdf:RDF`/`rdf:Description` shell with one
`xmlns` declaration per namespace of `finishDecls`, and the footer. -/
def XmpWriter.finish (w : XmpWriter) (about : Option String) : String :=
  "<?xpacket begin=\"\uFEFF\" id=\"W5M0MpCehiHzreSzNTczkc9d\"?>"
    ++ "<x:xmpmeta xmlns:x=\"adobe:ns:meta/\" x:xmptk=\"xmp-writer\"><rdf:RDF xmlns:rdf=\""
    ++ Namespace.Rdf.url ++ "\"><rdf:Description rdf:about=\"" ++ about.getD "" ++ "\""
    ++ String.join ((finishDecls w).map
        (fun ns => " xmlns:" ++ ns.pfx ++ "=\"" ++ ns.url ++ "\" "))
    ++ ">" ++ w.buf
    ++ "</rdf:Description></rdf:RDF></x:xmpmeta><?xpacket end=\"r\"?>"

/-- Helper turning a list of plain string values into array items with
no attributes, as `Element::ordered_array` does via `element().value(..)`. -/
def strItems : List String → Items
  | [] => .nil
  | s :: rest => .cons [] (.value (.text s)) (strItems rest)

/-- Model of `XmpWriter::creator`, which runs `ordered_array` on a `creator` element in the Dublin Core namespace. -/
def XmpWriter.creator (w : XmpWriter) (items : List String) : XmpWriter :=
  writeElement w "creator" .DublinCore [] (.arr .Seq (strItems items))

/-- Items of `Element::language_alternative`: each pair becomes an
`rdf:li` with an `xml:lang` attribute (`lang.unwrap_or_default().0`)
holding the text value. -/
def langItems : List (Option LangId × String) → Items
  | [] => .nil
  | (lang, v) :: rest =>
      .cons [("xml:lang", (lang.getD LangId.default).val)] (.value (.text v))
        (langItems rest)

/-- Model of `Element::language_alternative` on an element opened with no
attributes: an `Alt` array of the language items. -/
def languageAlternative (w : XmpWriter) (n : String) (ns : Namespace)
    (items : List (Option LangId × String)) : XmpWriter :=
  writeElement w n ns [] (.arr .Alt (langItems items))

/-- Verbatim rendering of an attribute list, one `key="value"` pair per
entry with a leading space, exactly as the loop in `Element::with_attrs`
emits it (no escaping of keys or values). -/
def attrsStr : List (String × String) → String
  | [] => ""
  | kv :: rest => " " ++ kv.1 ++ "=\"" ++ kv.2 ++ "\"" ++ attrsStr rest

/-- The opening-tag fragment an element emits before `>`. -/
def openStr (n : String) (ns : Namespace) (attrs : List (String × String)) : String :=
  "<" ++ ns.pfx ++ ":" ++ n ++ attrsStr attrs

/-- The closing-tag fragment of an element (`Element::close`, and the
`Drop` impls of `Struct` and the element part of `Array`). -/
def closeStr (n : String) (ns : Namespace) : String :=
  "</" ++ ns.pfx ++ ":" ++ n ++ ">"

mutual

/-- Closed-form fragment produced by writing one element: the opening
tag, then — depending on the content — the scalar value, the struct
fields inside `rdf:parseType="Resource"`, or the array items inside the
`<rdf:{kind}>` wrapper, followed by the closing tags of the scope. -/
def renderElem (n : String) (ns : Namespace) (attrs : List (String × String)) :
    Content → String
  | .value v => openStr n ns attrs ++ ">" ++ v.render ++ closeStr n ns
  | .strct fs =>
      openStr n ns attrs ++ " rdf:parseType=\"Resource\">" ++ renderFields fs
        ++ closeStr n ns
  | .arr k its =>
      openStr n ns attrs ++ ">" ++ "<rdf:" ++ k.rdfType ++ ">" ++ renderItems its
        ++ "</rdf:" ++ k.rdfType ++ ">" ++ closeStr n ns

/-- Closed-form fragment of the items of an array: each item is an
`rdf:li` element in the `Rdf` namespace. -/
def renderItems : Items → String
  | .nil => ""
  | .cons attrs c rest => renderElem "li" .Rdf attrs c ++ renderItems rest

/-- Closed-form fragment of the fields of a struct. -/
def renderFields : Fields → String
  | .nil => ""
  | .cons n ns attrs c rest => renderElem n ns attrs c ++ renderFields rest

end

mutual

/-- Modelled from the spec: the namespaces recorded while writing a
content tree — every element open records its own namespace, and
opening an array or struct additionally records `Rdf` (array items are
`rdf:li` elements, so they record `Rdf` as well). -/
def usedContent : Content → List Namespace
  | .value _ => []
  | .arr _ its => .Rdf :: usedItems its
  | .strct fs => .Rdf :: usedFields fs

/-- Modelled from the spec: namespaces recorded by the items of an
array (each `rdf:li` element open records `Rdf`). -/
def usedItems : Items → List Namespace
  | .nil => []
  | .cons _ c rest => .Rdf :: (usedContent c ++ usedItems rest)

/-- Modelled from the spec: namespaces recorded by the fields of a
struct (each field element open records its own namespace). -/
def usedFields : Fields → List Namespace
  | .nil => []
  | .cons _ ns _ c rest => ns :: (usedContent c ++ usedFields rest)

end

/-- Modelled from the spec: namespaces recorded over a whole document. -/
def usedDoc : List (String × Namespace × Content) → List Namespace
  | [] => []
  | (_, ns, c) :: rest => ns :: (usedContent c ++ usedDoc rest)

/-- Modelled from the spec: per-character escaping table — each of the
five XML special characters is replaced with its named entity, all
other characters pass through unchanged. -/
def specEscapeChar (c : Char) : String :=
  if c = '<' then "&lt;"
  else if c = '>' then "&gt;"
  else if c = '&' then "&amp;"
  else if c = Char.ofNat 39 then "&apos;"
  else if c = '"' then "&quot;"
  else String.singleton c

/- ### Helper lemmas -/

theorem mem_insertNs (a x : Namespace) (l : List Namespace) :
    a ∈ insertNs x l ↔ a = x ∨ a ∈ l := by
  induction l with
  | nil => simp [insertNs]
  | cons y ys ih =>
    simp only [insertNs]
    by_cases h1 : x = y
    · subst h1
      simp [List.mem_cons]
    · rw [if_neg h1]
      by_cases h2 : Namespace.ltB x y
      · simp only [if_pos h2, List.mem_cons]
      · simp only [if_neg h2, List.mem_cons, ih]
        tauto

theorem foldl_attrs (attrs : List (String × String)) (b : String) :
    attrs.foldl (fun b kv => b ++ " " ++ kv.1 ++ "=\"" ++ kv.2 ++ "\"") b
      = b ++ attrsStr attrs := by
  induction attrs generalizing b with
  | nil => simp [attrsStr]
  | cons kv rest ih =>
    rw [List.foldl_cons, ih]
    simp only [attrsStr, String.append_assoc]

theorem openTagW_buf (w : XmpWriter) (n : String) (ns : Namespace)
    (attrs : List (String × String)) :
    (openTagW w n ns attrs).buf = w.buf ++ openStr n ns attrs := by
  simp only [openTagW]
  rw [foldl_attrs]
  simp only [openStr, String.append_assoc]

theorem openTagW_ns (w : XmpWriter) (n : String) (ns : Namespace)
    (attrs : List (String × String)) :
    (openTagW w n ns attrs).namespaces = insertNs ns w.namespaces := rfl

mutual

theorem buf_writeElement (w : XmpWriter) (n : String) (ns : Namespace)
    (attrs : List (String × String)) (c : Content) :
    (writeElement w n ns attrs c).buf = w.buf ++ renderElem n ns attrs c := by
  cases c with
  | value v =>
    simp only [writeElement, renderElem, closeStr, openTagW_buf, String.append_assoc]
  | strct fs =>
    simp only [writeElement, renderElem, closeStr]
    rw [buf_writeFields]
    simp only [openTagW_buf, String.append_assoc]
  | arr k its =>
    simp only [writeElement, renderElem, closeStr]
    rw [buf_writeItems]
    simp only [openTagW_buf, String.append_assoc]

theorem buf_writeItems (w : XmpWriter) (its : Items) :
    (writeItems w its).buf = w.buf ++ renderItems its := by
  cases its with
  | nil => simp [writeItems, renderItems]
  | cons attrs c rest =>
    simp only [writeItems, renderItems]
    rw [buf_writeItems, buf_writeElement]
    simp only [String.append_assoc]

theorem buf_writeFields (w : XmpWriter) (fs : Fields) :
    (writeFields w fs).buf = w.buf ++ renderFields fs := by
  cases fs with
  | nil => simp [writeFields, renderFields]
  | cons n ns attrs c rest =>
    simp only [writeFields, renderFields]
    rw [buf_writeFields, buf_writeElement]
    simp only [String.append_assoc]

end

mutual

theorem ns_writeElement (w : XmpWriter) (n : String) (ns : Namespace)
    (attrs : List (String × String)) (c : Content) (a : Namespace) :
    a ∈ (writeElement w n ns attrs c).namespaces ↔
      a = ns ∨ a ∈ usedContent c ∨ a ∈ w.namespaces := by
  cases c with
  | value v =>
    simp only [writeElement, usedContent, openTagW, mem_insertNs, List.not_mem_nil]
    tauto
  | strct fs =>
    simp only [writeElement, usedContent]
    rw [ns_writeFields]
    simp only [openTagW, mem_insertNs, List.mem_cons]
    tauto
  | arr k its =>
    simp only [writeElement, usedContent]
    rw [ns_writeItems]
    simp only [openTagW, mem_insertNs, List.mem_cons]
    tauto

theorem ns_writeItems (w : XmpWriter) (its : Items) (a : Namespace) :
    a ∈ (writeItems w its).namespaces ↔ a ∈ usedItems its ∨ a ∈ w.namespaces := by
  cases its with
  | nil => simp [writeItems, usedItems]
  | cons attrs c rest =>
    simp only [writeItems, usedItems]
    rw [ns_writeItems]
    simp only [ns_writeElement, List.mem_cons, List.mem_append]
    tauto

theorem ns_writeFields (w : XmpWriter) (fs : Fields) (a : Namespace) :
    a ∈ (writeFields w fs).namespaces ↔ a ∈ usedFields fs ∨ a ∈ w.namespaces := by
  cases fs with
  | nil => simp [writeFields, usedFields]
  | cons n ns attrs c rest =>
    simp only [writeFields, usedFields]
    rw [ns_writeFields]
    simp only [ns_writeElement, List.mem_cons, List.mem_append]
    tauto

end

theorem ns_writeDoc (w : XmpWriter) (d : List (String × Namespace × Content))
    (a : Namespace) :
    a ∈ (writeDoc w d).namespaces ↔ a ∈ usedDoc d ∨ a ∈ w.namespaces := by
  induction d generalizing w with
  | nil => simp [writeDoc, usedDoc]
  | cons e rest ih =>
    obtain ⟨n, ns, c⟩ := e
    simp only [writeDoc, usedDoc, ih, ns_writeElement, List.mem_cons, List.mem_append]
    tauto

theorem join_cons (s : String) (l : List String) :
    String.join (s :: l) = s ++ String.join l := by
  apply String.ext
  simp [String.data_join, String.data_append]

theorem escape_fold (l : List Char) (acc : String) :
    l.foldl (fun res c => res ++ escapeChar c) acc
      = acc ++ String.join (l.map specEscapeChar) := by
  induction l generalizing acc with
  | nil => simp [String.join]
  | cons c cs ih =>
    have hc : escapeChar c = specEscapeChar c := rfl
    simp only [List.foldl_cons, List.map_cons, ih, join_cons, hc, String.append_assoc]

/- ### Claims -/

/-- C1: for every document built through any sequence of builder calls,
the set of `xmlns` declarations emitted on the `rdf:Description` root by
`finish` (the namespaces `finishDecls` iterates, one declaration each)
equals exactly the set of namespaces recorded while writing — every
element open records its own namespace, arrays and structs additionally
record `Rdf` — minus the `Rdf` namespace itself: no namespace is
declared that was never used, and no used namespace is left
undeclared. -/
theorem c1_namespace_decls_exact (d : List (String × Namespace × Content))
    (a : Namespace) :
    a ∈ finishDecls (writeDoc XmpWriter.new d) ↔
      a ∈ usedDoc d ∧ a ≠ Namespace.Rdf := by
  simp only [finishDecls, List.mem_filter, ns_writeDoc, XmpWriter.new,
    List.not_mem_nil, or_false, decide_eq_true_eq]

/-- C2: every opened container scope emits its closing tags exactly once
at the end of its scope, in LIFO order: an array scope appends, after
all of its items, `</rdf:{kind}>` followed by the original element's
closing tag, and a struct scope appends the original element's closing
tag after all of its fields (struct and element share one closing
tag). -/
theorem c2_scope_closing (w : XmpWriter) (n : String) (ns : Namespace)
    (attrs : List (String × String)) (k : RdfCollectionType) (its : Items)
    (fs : Fields) :
    ((writeElement w n ns attrs (.arr k its)).buf
      = w.buf ++ openStr n ns attrs ++ ">" ++ "<rdf:" ++ k.rdfType ++ ">"
        ++ renderItems its
        ++ ("</rdf:" ++ k.rdfType ++ ">" ++ ("</" ++ ns.pfx ++ ":" ++ n ++ ">")))
    ∧ ((writeElement w n ns attrs (.strct fs)).buf
      = w.buf ++ openStr n ns attrs ++ " rdf:parseType=\"Resource\">"
        ++ renderFields fs ++ ("</" ++ ns.pfx ++ ":" ++ n ++ ">")) := by
  constructor <;>
    · rw [buf_writeElement]
      simp [renderElem, closeStr, String.append_assoc]

/-- C3: a fresh writer finalized with no `about` value produces exactly
the fixed packet: BOM-bearing xpacket header with the magic id, the
`x:xmpmeta` wrapper, `rdf:RDF` with the fixed `xmlns:rdf` declaration,
`rdf:Description` with `rdf:about=""` and zero additional `xmlns`
declarations, an empty body, the matching closing tags, and the xpacket
end instruction. -/
theorem c3_empty_document :
    XmpWriter.new.finish none
      = "<?xpacket begin=\"﻿\" id=\"W5M0MpCehiHzreSzNTczkc9d\"?><x:xmpmeta xmlns:x=\"adobe:ns:meta/\" x:xmptk=\"xmp-writer\"><rdf:RDF xmlns:rdf=\"http://www.w3.org/1999/02/22-rdf-syntax-ns#\"><rdf:Description rdf:about=\"\"></rdf:Description></rdf:RDF></x:xmpmeta><?xpacket end=\"r\"?>" := by
  rfl

/-- C4: text values are escaped exactly per the five-entity table — the
source accumulator fold equals the spec's per-character replacement map
(`specEscapeChar`), each special character maps to its named entity,
every other character (including non-ASCII) passes through unchanged,
and the scenario-D input renders as specified. -/
theorem c4_text_escaping :
    (∀ s : String, escapeStr s = String.join (s.data.map specEscapeChar))
    ∧ specEscapeChar '<' = "&lt;"
    ∧ specEscapeChar '>' = "&gt;"
    ∧ specEscapeChar '&' = "&amp;"
    ∧ specEscapeChar (Char.ofNat 39) = "&apos;"
    ∧ specEscapeChar '"' = "&quot;"
    ∧ (∀ c : Char, c ∉ (['<', '>', '&', Char.ofNat 39, '"'] : List Char) →
        specEscapeChar c = String.singleton c)
    ∧ escapeStr "He said \"hi\" & <left>" = "He said &quot;hi&quot; &amp; &lt;left&gt;"
    ∧ escapeStr "Grüße" = "Grüße" := by
  refine ⟨fun s => ?_, by decide, by decide, by decide, by decide, by decide,
    fun c hc => ?_, by decide, by decide⟩
  · exact escape_fold s.data ""
  · simp only [List.mem_cons, List.not_mem_nil, or_false, not_or] at hc
    obtain ⟨h1, h2, h3, h4, h5⟩ := hc
    simp [specEscapeChar, h1, h2, h3, h4, h5]

/-- Witness for C4: the component with a hypothesis, applied at the
concrete character `X`. -/
theorem c4_text_escaping_witness :
    ('X' ∉ (['<', '>', '&', Char.ofNat 39, '"'] : List Char))
    ∧ specEscapeChar 'X' = String.singleton 'X' :=
  ⟨by decide, c4_text_escaping.2.2.2.2.2.2.1 'X' (by decide)⟩

set_option maxRecDepth 4096 in
/-- C5: writing the Dublin Core `creator` property with the single value
`"Martin Haug"` appends exactly the expected `dc:creator` ordered-array
fragment to the body, and the finalized document declares
`xmlns:dc="http://purl.org/dc/elements/1.1/"` on the `rdf:Description`
root (shown both as the declaration list and as the full finished
document). -/
theorem c5_creator_scenario :
    ((XmpWriter.new.creator ["Martin Haug"]).buf
      = "<dc:creator><rdf:Seq><rdf:li>Martin Haug</rdf:li></rdf:Seq></dc:creator>")
    ∧ finishDecls (XmpWriter.new.creator ["Martin Haug"]) = [Namespace.DublinCore]
    ∧ ((XmpWriter.new.creator ["Martin Haug"]).finish none
      = "<?xpacket begin=\"﻿\" id=\"W5M0MpCehiHzreSzNTczkc9d\"?><x:xmpmeta xmlns:x=\"adobe:ns:meta/\" x:xmptk=\"xmp-writer\"><rdf:RDF xmlns:rdf=\"http://www.w3.org/1999/02/22-rdf-syntax-ns#\"><rdf:Description rdf:about=\"\" xmlns:dc=\"http://purl.org/dc/elements/1.1/\" ><dc:creator><rdf:Seq><rdf:li>Martin Haug</rdf:li></rdf:Seq></dc:creator></rdf:Description></rdf:RDF></x:xmpmeta><?xpacket end=\"r\"?>") := by
  exact ⟨rfl, rfl, rfl⟩

/-- C6: `language_alternative` writes the property as an `rdf:Alt` array
whose items are `rdf:li` elements carrying an `xml:lang` attribute; an
item with language `None` gets the literal attribute value `x-default`.
Stated as the closed form of the emitted fragment for every item list,
plus the concrete one-item `None` case. -/
theorem c6_language_alternative (w : XmpWriter) (n : String) (ns : Namespace)
    (items : List (Option LangId × String)) :
    ((languageAlternative w n ns items).buf
      = w.buf ++ "<" ++ ns.pfx ++ ":" ++ n ++ ">" ++ "<rdf:Alt>"
        ++ String.join (items.map (fun p =>
            "<rdf:li xml:lang=\""
              ++ (match p.1 with
                  | none => "x-default"
                  | some l => l.val)
              ++ "\"" ++ ">" ++ escapeStr p.2 ++ "</rdf:li>"))
        ++ "</rdf:Alt>" ++ "</" ++ ns.pfx ++ ":" ++ n ++ ">")
    ∧ ((languageAlternative XmpWriter.new "title" .DublinCore [(none, "Title")]).buf
      = "<dc:title><rdf:Alt><rdf:li xml:lang=\"x-default\">Title</rdf:li></rdf:Alt></dc:title>") := by
  have h : ∀ l : List (Option LangId × String),
      renderItems (langItems l)
        = String.join (l.map (fun p =>
            "<rdf:li xml:lang=\""
              ++ (match p.1 with
                  | none => "x-default"
                  | some l => l.val)
              ++ "\"" ++ ">" ++ escapeStr p.2 ++ "</rdf:li>")) := by
    intro l
    have hB : ∀ X : String,
        ("<rdf:li xml:lang=\"" : String) ++ ("x-default" ++ ("\">" ++ X))
          = "<rdf:li xml:lang=\"x-default\">" ++ X := by
      intro X
      rw [← String.append_assoc, ← String.append_assoc]
      rfl
    have hC : ∀ X : String,
        ("<rdf:li" : String) ++ (" xml:lang=\"" ++ X) = "<rdf:li xml:lang=\"" ++ X := by
      intro X
      rw [← String.append_assoc]
      rfl
    induction l with
    | nil => rfl
    | cons p rest ih =>
      obtain ⟨lang, v⟩ := p
      simp only [langItems, renderItems, List.map_cons, join_cons, ih]
      cases lang <;>
        simp [renderElem, openStr, attrsStr, closeStr, Val.render, LangId.default,
          Option.getD, Namespace.pfx, String.append_empty, String.append_assoc,
          hB, hC]
  have hA : ∀ X : String,
      ("</rdf:Alt></" : String) ++ X = "</rdf:Alt>" ++ ("</" ++ X) := by
    intro X
    rw [← String.append_assoc]
    rfl
  constructor
  · rw [languageAlternative, buf_writeElement]
    simp only [renderElem, openStr, attrsStr, closeStr, RdfCollectionType.rdfType, h]
    simp [String.append_assoc, String.append_empty, hA]
  · rfl

/-- C7: rendering a boolean writes the literal capitalized string `True`
for true and `False` for false, exactly. -/
theorem c7_boolean_casing :
    boolWrite true = "True" ∧ boolWrite false = "False" :=
  ⟨rfl, rfl⟩

/-- C8: `Rating::from_stars` returns `Unknown` for `None` and `Some 0`,
the corresponding n-star variant for 1 ≤ n ≤ 5, and panics (modelled as
`none`) for every greater star count — no out-of-range rating is ever
accepted. -/
theorem c8_rating_from_stars :
    Rating.fromStars none = some .Unknown
    ∧ Rating.fromStars (some 0) = some .Unknown
    ∧ Rating.fromStars (some 1) = some .OneStar
    ∧ Rating.fromStars (some 2) = some .TwoStars
    ∧ Rating.fromStars (some 3) = some .ThreeStars
    ∧ Rating.fromStars (some 4) = some .FourStars
    ∧ Rating.fromStars (some 5) = some .FiveStars
    ∧ (∀ n : Nat, Rating.fromStars (some (n + 6)) = none) :=
  ⟨rfl, rfl, rfl, rfl, rfl, rfl, rfl, fun _ => rfl⟩

/-- C9: gap field combinations of `DateTime` are filled with defaults
rather than rejected: hour set but minute unset renders `THH:00`
(minute defaulted to zero), and `tz_hour` set but `tz_minute` unset
renders the offset minutes as `00`. -/
theorem c9_datetime_gap_defaults (y mo d h mi s : Nat) (tzh : Int) :
    (DateTime.write ⟨y, some mo, some d, some h, none, none, none, none⟩
      = some (pad4 y ++ "-" ++ pad2 mo ++ "-" ++ pad2 d ++ "T" ++ pad2 h ++ ":"
          ++ pad2 0))
    ∧ (DateTime.write ⟨y, some mo, some d, some h, some mi, some s, some tzh, none⟩
      = some (pad4 y ++ "-" ++ pad2 mo ++ "-" ++ pad2 d ++ "T" ++ pad2 h ++ ":"
          ++ pad2 mi ++ ":" ++ pad2 s ++ pad3Int tzh ++ ":" ++ pad2Int 0))
    ∧ pad2 0 = "00" ∧ pad2Int 0 = "00" :=
  ⟨rfl, rfl, rfl, rfl⟩

/-- C10: attribute keys and values are written into the opening tag
verbatim, with no XML escaping: the emitted attribute fragment is
exactly `space key ="value"` per pair, and a value containing a raw
double quote and angle bracket appears unescaped inside the emitted
attribute syntax, so the output is not well-formed XML for such
inputs. -/
theorem c10_attrs_verbatim (w : XmpWriter) (n : String) (ns : Namespace)
    (attrs : List (String × String)) (v : Val) :
    ((writeElement w n ns attrs (.value v)).buf
      = w.buf ++ ("<" ++ ns.pfx ++ ":" ++ n ++ attrsStr attrs) ++ ">" ++ v.render
        ++ ("</" ++ ns.pfx ++ ":" ++ n ++ ">"))
    ∧ (∀ k a rest, attrsStr ((k, a) :: rest)
        = " " ++ k ++ "=\"" ++ a ++ "\"" ++ attrsStr rest)
    ∧ ((writeElement XmpWriter.new "li" .Rdf [("key", "a\"b<c")]
          (.value (.text "x"))).buf
      = "<rdf:li key=\"a\"b<c\">x</rdf:li>") := by
  refine ⟨?_, fun k a rest => rfl, rfl⟩
  rw [buf_writeElement]
  simp [renderElem, openStr, closeStr, String.append_assoc]

end XmpW
